import Mathlib

/-!
Shallow embedding of the MediTrack appointment system.

The definitions below are translated from the TypeScript source:
  * `BookAppointment` (booking form handler, daily-cap monitor, slot list),
  * `PatientDashboard` (feedback submission, prescription display,
    upcoming/past projections),
  * `DoctorDashboard` (status updates, prescription submission,
    aggregation stats),
  * `AuthContext` (email validation and registration).
The Firestore appointments collection is modelled as a `List Appointment`;
each handler becomes a pure function on that list or on a single record.
-/

namespace MediTrack

/-- JavaScript `String.prototype.trim`, implemented over the character
list so that proofs can evaluate it (the builtin byte-position walk does
not reduce in the kernel). -/
def strTrim (s : String) : String :=
  String.mk
    (((s.data.dropWhile Char.isWhitespace).reverse.dropWhile
        Char.isWhitespace).reverse)

/-- JavaScript `String.prototype.endsWith`, implemented over the
character list so that proofs can evaluate it. -/
def strEndsWith (s suffix : String) : Bool :=
  suffix.data.isSuffixOf s.data

/-- Lexicographic order on character lists. -/
def charListLt : List Char → List Char → Bool
  | [], [] => false
  | [], _ :: _ => true
  | _ :: _, [] => false
  | a :: as, b :: bs =>
      if a < b then true else if b < a then false else charListLt as bs

/-- The JavaScript `<` comparison on strings (code-unit lexicographic
order, which on YYYY-MM-DD dates is chronological order), implemented
over the character list so that proofs can evaluate it. -/
def strLt (a b : String) : Bool :=
  charListLt a.data b.data

/-- The five appointment statuses from the `Appointment` interface. -/
inductive Status where
  | pending
  | confirmed
  | inProgress
  | completed
  | cancelled
deriving DecidableEq, Repr, Fintype

/-- Prescription record shape from the `Appointment` interface. -/
structure Prescription where
  medicine : String
  dosage : String
  frequency : String
  instructions : String
deriving DecidableEq, Repr

/-- Feedback record shape from the `Appointment` interface. -/
structure Feedback where
  rating : Nat
  comment : String
deriving DecidableEq, Repr

/-- The Appointment document as stored in the `appointments` collection. -/
structure Appointment where
  id : String
  doctorId : String
  doctorName : String
  patientId : String
  patientName : String
  date : String
  time : String
  status : Status
  note : String
  prescription : Option Prescription := none
  feedback : Option Feedback := none
  createdAt : Nat := 0
deriving DecidableEq, Repr

/-- Doctor record shape fetched from the `users` collection in
`BookAppointment`. -/
structure Doctor where
  uid : String
  firstName : String
  lastName : String
  email : String
deriving DecidableEq, Repr

/-- User roles from `AuthContext`. -/
inductive Role where
  | doctor
  | patient
deriving DecidableEq, Repr

/-- `UserProfile` from `AuthContext`. -/
structure UserProfile where
  uid : String
  email : String
  role : Role
  firstName : String
  lastName : String
  createdAt : Nat := 0
deriving DecidableEq, Repr

deriving instance DecidableEq for Except

/-! ## Booking (`BookAppointment`) -/

/-- The fixed `timeSlots` array in `BookAppointment`. -/
def timeSlots : List String :=
  ["09:00", "09:30", "10:00", "10:30", "11:00", "11:30",
   "14:00", "14:30", "15:00", "15:30", "16:00", "16:30"]

/-- The `todayAppointments` counter: size of the snapshot of the query
`patientId == userProfile.uid && date == today` over the appointments
collection. -/
def todayAppointments (appts : List Appointment) (uid today : String) : Nat :=
  (appts.filter (fun a => a.patientId == uid && a.date == today)).length

/-- Error outcomes of `handleSubmit` in `BookAppointment`, one per
`setError` call site: the daily-cap message, the required-fields message,
the past-date message, and the generic catch-block failure message. -/
inductive BookingError where
  | dailyLimitExceeded
  | missingFields
  | pastDate
  | bookingFailed
deriving DecidableEq, Repr

/-- The booking form state (`selectedDoctor`, `date`, `time`, `note`). -/
structure BookingForm where
  selectedDoctor : String
  date : String
  time : String
  note : String
deriving DecidableEq, Repr

/-- The document passed to `addDoc` on a successful booking. -/
def newAppointment (patient : UserProfile) (d : Doctor) (form : BookingForm)
    (now : Nat) : Appointment :=
  { id := ""
    patientId := patient.uid
    patientName := patient.firstName ++ " " ++ patient.lastName
    doctorId := form.selectedDoctor
    doctorName := d.firstName ++ " " ++ d.lastName
    date := form.date
    time := form.time
    note := strTrim form.note
    status := .pending
    createdAt := now }

/-- `handleSubmit` from `BookAppointment`, with its checks in source
order: (1) `todayAppointments >= 2`, (2) `!selectedDoctor || !date ||
!time`, (3) `date < today` (string comparison of YYYY-MM-DD dates),
then the doctor lookup `doctors.find(doc => doc.uid === selectedDoctor)`
— the non-null assertion on a failed lookup throws inside the try block
before `addDoc`, which the catch turns into the generic failure error —
and finally the `addDoc` appending the new record. -/
def handleSubmit (appts : List Appointment) (doctors : List Doctor)
    (patient : UserProfile) (today : String) (form : BookingForm)
    (now : Nat) : Except BookingError (List Appointment) :=
  if todayAppointments appts patient.uid today ≥ 2 then
    .error .dailyLimitExceeded
  else if form.selectedDoctor == "" || form.date == "" || form.time == "" then
    .error .missingFields
  else if strLt form.date today then
    .error .pastDate
  else
    match doctors.find? (fun d => d.uid == form.selectedDoctor) with
    | none => .error .bookingFailed
    | some d => .ok (appts ++ [newAppointment patient d form now])

/-! ## Status updates and prescriptions (`DoctorDashboard`) -/

/-- `updateAppointmentStatus` from `DoctorDashboard`: an unconditional
`updateDoc` writing the given status.  The function performs no check of
the current status. -/
def updateAppointmentStatus (a : Appointment) (newStatus : Status) :
    Appointment :=
  { a with status := newStatus }

/-- The single error outcome of `handlePrescriptionSubmit`
(the message asking for a medicine name). -/
inductive PrescriptionError where
  | missingMedicine
deriving DecidableEq, Repr

/-- `handlePrescriptionSubmit` from `DoctorDashboard`: rejects a blank
(empty after trim) medicine name without writing; otherwise one
`updateDoc` sets `status = completed` and `prescription` together.  The
function itself performs no check of the current status. -/
def handlePrescriptionSubmit (a : Appointment) (p : Prescription) :
    Except PrescriptionError Appointment :=
  if strTrim p.medicine == "" then
    .error .missingMedicine
  else
    .ok { a with status := .completed, prescription := some p }

/-- The four doctor-side actions offered by the dashboard buttons. -/
inductive DoctorAction where
  | accept
  | decline
  | start
  | complete (p : Prescription)
deriving DecidableEq, Repr

/-- One doctor action as reachable through the dashboard UI: the
Accept/Decline buttons are rendered only for `pending` records, Start
only for `confirmed`, and the prescription form only for `in-progress`
records; where the button is absent the action does nothing.  The
underlying writes are `updateAppointmentStatus` and
`handlePrescriptionSubmit` exactly as in the source. -/
def doctorStep (a : Appointment) (act : DoctorAction) : Appointment :=
  match act with
  | .accept =>
      if a.status == .pending then updateAppointmentStatus a .confirmed else a
  | .decline =>
      if a.status == .pending then updateAppointmentStatus a .cancelled else a
  | .start =>
      if a.status == .confirmed then updateAppointmentStatus a .inProgress
      else a
  | .complete p =>
      if a.status == .inProgress then
        match handlePrescriptionSubmit a p with
        | .ok b => b
        | .error _ => a
      else a

/-- The legal edges of the status state machine described for the
workflow. -/
def legalEdge : Status → Status → Bool
  | .pending, .confirmed => true
  | .pending, .cancelled => true
  | .confirmed, .inProgress => true
  | .inProgress, .completed => true
  | _, _ => false

/-- Reflexive-transitive closure of `legalEdge`, tabulated. -/
def reachable : Status → Status → Bool
  | .pending, _ => true
  | .confirmed, .confirmed => true
  | .confirmed, .inProgress => true
  | .confirmed, .completed => true
  | .inProgress, .inProgress => true
  | .inProgress, .completed => true
  | .completed, .completed => true
  | .cancelled, .cancelled => true
  | _, _ => false

/-! ## Feedback (`PatientDashboard`) -/

/-- `handleFeedbackSubmit` from `PatientDashboard`: returns without
writing when no form entry exists or its rating is `0`; otherwise one
`updateDoc` writes the `feedback` field unconditionally.  No ownership,
status, or duplicate check is made, and no error value is produced. -/
def handleFeedbackSubmit (a : Appointment) (fb : Option Feedback) :
    Appointment :=
  match fb with
  | none => a
  | some f => if f.rating == 0 then a else { a with feedback := some f }

/-- One feedback submission as reachable through the patient dashboard
UI: the feedback form is rendered only when `status === completed` and
no feedback is present, and the submit button is disabled while the
rating is `0`; the dashboard query restricts the list to the requesting
patient.  Where the form is absent the submission does nothing. -/
def patientFeedbackStep (a : Appointment) (fb : Feedback) : Appointment :=
  if a.status == .completed && a.feedback == none && fb.rating != 0 then
    handleFeedbackSubmit a (some fb)
  else a

/-- The rating values the star buttons can set (`[1, 2, 3, 4, 5]`). -/
def starRatings : List Nat := [1, 2, 3, 4, 5]

/-! ## Projections and aggregation -/

/-- `pendingAppointments` in `DoctorDashboard`. -/
def pendingAppointments (l : List Appointment) : List Appointment :=
  l.filter (fun a => a.status == .pending)

/-- `activeAppointments` in `DoctorDashboard`. -/
def activeAppointments (l : List Appointment) : List Appointment :=
  l.filter (fun a => a.status == .confirmed || a.status == .inProgress)

/-- `completedAppointments` in `DoctorDashboard`. -/
def completedAppointments (l : List Appointment) : List Appointment :=
  l.filter (fun a => a.status == .completed)

/-- `appointmentsWithFeedback` in `DoctorDashboard`. -/
def appointmentsWithFeedback (l : List Appointment) : List Appointment :=
  l.filter (fun a => a.feedback.isSome)

/-- The `reduce` accumulating `apt.feedback!.rating` in
`DoctorDashboard`. -/
def feedbackRatingSum (l : List Appointment) : Nat :=
  (appointmentsWithFeedback l).foldl
    (fun s a => s + ((a.feedback.map Feedback.rating).getD 0)) 0

/-- `averageRating` in `DoctorDashboard`: the rating sum divided by the
number of feedback-bearing records, `0` when there are none.  JavaScript
number division is modelled with rationals. -/
def averageRating (l : List Appointment) : ℚ :=
  if (appointmentsWithFeedback l).length > 0 then
    (feedbackRatingSum l : ℚ) / ((appointmentsWithFeedback l).length : ℚ)
  else 0

/-- `upcomingAppointments` in `PatientDashboard`. -/
def upcomingAppointments (l : List Appointment) : List Appointment :=
  l.filter (fun a =>
    a.status == .pending || a.status == .confirmed || a.status == .inProgress)

/-- `pastAppointments` in `PatientDashboard` (statuses `completed` and
`cancelled`); its length is displayed under the label `Completed
Visits`. -/
def pastAppointments (l : List Appointment) : List Appointment :=
  l.filter (fun a => a.status == .completed || a.status == .cancelled)

/-- The `Prescriptions` stat in `PatientDashboard`:
`appointments.filter(apt => apt.prescription).length`. -/
def prescriptionsCount (l : List Appointment) : Nat :=
  (l.filter (fun a => a.prescription.isSome)).length

/-! ## Prescription visibility -/

/-- The prescription block in `PatientDashboard` is rendered only when a
prescription is present and `status === completed`; this projection
returns what that block shows the patient (`none` means the block is
absent, i.e. the data is not available). -/
def patientPrescriptionView (a : Appointment) : Option Prescription :=
  if a.prescription.isSome && a.status == .completed then a.prescription
  else none

/-- `DoctorDashboard` renders no stored prescription anywhere (it only
offers the entry form), so the doctor-side view of a stored prescription
is always absent. -/
def doctorPrescriptionView (_ : Appointment) : Option Prescription :=
  none

/-- What a requester sees of an appointment record: the patient
dashboard query selects records with `patientId == requester` and the
doctor dashboard query those with `doctorId == requester`; each shows
its own prescription projection; anyone else sees nothing. -/
def viewPrescription (a : Appointment) (requesterId : String) :
    Option Prescription :=
  if requesterId == a.patientId then patientPrescriptionView a
  else if requesterId == a.doctorId then doctorPrescriptionView a
  else none

/-- The visibility rule as the spec words it, for comparison with
`viewPrescription`: data is returned iff the status is `completed` and
the requester is the patient or the doctor of the record. -/
def viewPrescriptionSpec (a : Appointment) (requesterId : String) :
    Option Prescription :=
  if a.status == .completed
      && (requesterId == a.patientId || requesterId == a.doctorId) then
    a.prescription
  else none

/-! ## Registration (`AuthContext`) -/

/-- `validateEmail` from `AuthContext`. -/
def validateEmail (email : String) : Bool :=
  strEndsWith email "@meditrack.local"

/-- One registration request (the arguments of `register` plus the
identifier and timestamp the external services would supply). -/
structure RegRequest where
  email : String
  firstName : String
  lastName : String
  role : Role
  uid : String
  now : Nat
deriving DecidableEq, Repr

/-- `register` from `AuthContext`: throws before creating any auth user
or profile document when `validateEmail` fails; otherwise creates the
auth user and writes the profile document to the `users` store. -/
def register (store : List UserProfile) (r : RegRequest) :
    Except String (List UserProfile) :=
  if !validateEmail r.email then
    .error "Email must end with @meditrack.local"
  else
    .ok (store ++ [{ uid := r.uid, email := r.email, role := r.role,
                     firstName := r.firstName, lastName := r.lastName,
                     createdAt := r.now }])

/-- The effect of one `register` call on the `users` store: on a thrown
validation error the store is untouched. -/
def registerEffect (store : List UserProfile) (r : RegRequest) :
    List UserProfile :=
  match register store r with
  | .ok s => s
  | .error _ => store

/-! ## Concrete records used in the concrete-input theorems -/

/-- A sample patient profile. -/
def patOne : UserProfile :=
  { uid := "p1", email := "p1@meditrack.local", role := .patient,
    firstName := "Pat", lastName := "One", createdAt := 0 }

/-- A sample doctor record. -/
def drBob : Doctor :=
  { uid := "d1", firstName := "Bob", lastName := "Lee",
    email := "d1@meditrack.local" }

/-- A sample prescription with a non-blank medicine. -/
def rxAmox : Prescription :=
  { medicine := "Amoxicillin", dosage := "500mg",
    frequency := "Twice daily", instructions := "After meals" }

/-- A pending appointment of `patOne` with `drBob` dated 2025-06-01. -/
def apptToday1 : Appointment :=
  { id := "a1", doctorId := "d1", doctorName := "Bob Lee",
    patientId := "p1", patientName := "Pat One",
    date := "2025-06-01", time := "09:00", status := .pending, note := "" }

/-- A second pending appointment of `patOne` dated 2025-06-01. -/
def apptToday2 : Appointment :=
  { apptToday1 with id := "a2", time := "09:30" }

/-- A pending appointment of `patOne` dated 2025-06-02. -/
def apptTomorrow1 : Appointment :=
  { apptToday1 with id := "a3", date := "2025-06-02" }

/-- A second pending appointment of `patOne` dated 2025-06-02. -/
def apptTomorrow2 : Appointment :=
  { apptToday1 with id := "a4", date := "2025-06-02", time := "09:30" }

/-- A completed appointment carrying `rxAmox`. -/
def apptCompletedRx : Appointment :=
  { apptToday1 with
    id := "a5"
    status := .completed
    prescription := some rxAmox }

/-- A cancelled appointment. -/
def apptCancelled : Appointment :=
  { apptToday1 with id := "a6", status := .cancelled }

/-- A completed appointment with no feedback yet. -/
def apptDone : Appointment :=
  { apptToday1 with
    id := "a7"
    status := .completed
    prescription := some rxAmox }

/-- First feedback input. -/
def fbFive : Feedback := { rating := 5, comment := "great" }

/-- Second, different feedback input. -/
def fbTwo : Feedback := { rating := 2, comment := "bad" }

/-- A completed appointment already carrying `fbFive`. -/
def apptWithFb : Appointment :=
  { apptDone with id := "a8", feedback := some fbFive }

/-- A completed appointment carrying a rating-3 feedback. -/
def apptWithFb3 : Appointment :=
  { apptDone with
    id := "a9"
    feedback := some { rating := 3, comment := "" } }

/-- The patient dashboard query: records with `patientId` equal to the
requesting user (`where('patientId', '==', userProfile.uid)`). -/
def patientQuery (appts : List Appointment) (uid : String) :
    List Appointment :=
  appts.filter (fun a => a.patientId == uid)

/-- The doctor dashboard query: records with `doctorId` equal to the
requesting user (`where('doctorId', '==', userProfile.uid)`). -/
def doctorQuery (appts : List Appointment) (uid : String) :
    List Appointment :=
  appts.filter (fun a => a.doctorId == uid)

/-- A booking request of `patOne` for 2025-06-02 at a valid slot. -/
def bookFormJun2 : BookingForm :=
  { selectedDoctor := "d1", date := "2025-06-02", time := "10:00",
    note := "" }

/-- A prescription whose medicine is blank after trimming. -/
def rxBlank : Prescription :=
  { rxAmox with medicine := "  " }

/-- A feedback input whose rating is six. -/
def fbSix : Feedback := { rating := 6, comment := "" }

/-- A registration request with an email outside the required domain. -/
def regBad : RegRequest :=
  { email := "eve@gmail.com", firstName := "Eve", lastName := "Ng",
    role := .patient, uid := "u9", now := 1 }

/-- A registration request with an email in the required domain. -/
def regGood : RegRequest :=
  { email := "ann@meditrack.local", firstName := "Ann", lastName := "Wu",
    role := .doctor, uid := "u1", now := 2 }

/-- The profile document `register` writes for `regGood`. -/
def profileAnn : UserProfile :=
  { uid := "u1", email := "ann@meditrack.local", role := .doctor,
    firstName := "Ann", lastName := "Wu", createdAt := 2 }

/-! ## Helper lemmas -/

theorem reachable_refl (s : Status) : reachable s s = true := by
  cases s <;> rfl

theorem reachable_trans :
    ∀ s t u : Status, reachable s t = true → reachable t u = true →
      reachable s u = true := by decide

theorem legalEdge_to_reachable :
    ∀ s t : Status, legalEdge s t = true → reachable s t = true := by decide

theorem doctorStep_cases (a : Appointment) (act : DoctorAction) :
    doctorStep a act = a ∨
      legalEdge a.status ((doctorStep a act).status) = true := by
  cases act with
  | accept =>
      by_cases h : a.status = Status.pending
      · right
        simp [doctorStep, h, updateAppointmentStatus, legalEdge]
      · left
        simp [doctorStep, h]
  | decline =>
      by_cases h : a.status = Status.pending
      · right
        simp [doctorStep, h, updateAppointmentStatus, legalEdge]
      · left
        simp [doctorStep, h]
  | start =>
      by_cases h : a.status = Status.confirmed
      · right
        simp [doctorStep, h, updateAppointmentStatus, legalEdge]
      · left
        simp [doctorStep, h]
  | complete p =>
      by_cases h : a.status = Status.inProgress
      · by_cases hm : strTrim p.medicine = ""
        · left
          simp [doctorStep, h, handlePrescriptionSubmit, hm]
        · right
          simp [doctorStep, h, handlePrescriptionSubmit, hm, legalEdge]
      · left
        simp [doctorStep, h]

theorem foldl_doctorStep_reachable (a : Appointment)
    (acts : List DoctorAction) :
    reachable a.status ((acts.foldl doctorStep a).status) = true := by
  induction acts generalizing a with
  | nil => exact reachable_refl _
  | cons act rest ih =>
      simp only [List.foldl_cons]
      have h1 : reachable a.status ((doctorStep a act).status) = true := by
        rcases doctorStep_cases a act with h | h
        · rw [h]
          exact reachable_refl _
        · exact legalEdge_to_reachable _ _ h
      exact reachable_trans _ _ _ h1 (ih (doctorStep a act))

theorem doctorStep_terminal (a : Appointment) (act : DoctorAction)
    (h : a.status = Status.completed ∨ a.status = Status.cancelled) :
    doctorStep a act = a := by
  rcases h with h | h <;>
    cases act <;> simp [doctorStep, h, handlePrescriptionSubmit]

theorem doctorStep_fields (a : Appointment) (act : DoctorAction) :
    (doctorStep a act).patientId = a.patientId
    ∧ (doctorStep a act).doctorId = a.doctorId := by
  cases act with
  | accept =>
      by_cases h : a.status = Status.pending <;>
        simp [doctorStep, h, updateAppointmentStatus]
  | decline =>
      by_cases h : a.status = Status.pending <;>
        simp [doctorStep, h, updateAppointmentStatus]
  | start =>
      by_cases h : a.status = Status.confirmed <;>
        simp [doctorStep, h, updateAppointmentStatus]
  | complete p =>
      by_cases h : a.status = Status.inProgress
      · by_cases hm : strTrim p.medicine = "" <;>
          simp [doctorStep, h, handlePrescriptionSubmit, hm]
      · simp [doctorStep, h]

theorem doctorStep_preserves_rx (a : Appointment) (act : DoctorAction)
    (h : a.status = Status.completed → a.prescription.isSome = true) :
    (doctorStep a act).status = Status.completed →
      (doctorStep a act).prescription.isSome = true := by
  cases act with
  | accept =>
      by_cases hp : a.status = Status.pending
      · intro hc
        simp [doctorStep, hp, updateAppointmentStatus] at hc
      · simpa [doctorStep, hp] using h
  | decline =>
      by_cases hp : a.status = Status.pending
      · intro hc
        simp [doctorStep, hp, updateAppointmentStatus] at hc
      · simpa [doctorStep, hp] using h
  | start =>
      by_cases hp : a.status = Status.confirmed
      · intro hc
        simp [doctorStep, hp, updateAppointmentStatus] at hc
      · simpa [doctorStep, hp] using h
  | complete p =>
      by_cases hp : a.status = Status.inProgress
      · by_cases hm : strTrim p.medicine = ""
        · simp [doctorStep, hp, handlePrescriptionSubmit, hm]
        · intro _
          simp [doctorStep, hp, handlePrescriptionSubmit, hm]
      · simpa [doctorStep, hp] using h

theorem foldl_doctorStep_preserves_rx (a : Appointment)
    (acts : List DoctorAction)
    (h : a.status = Status.completed → a.prescription.isSome = true) :
    (acts.foldl doctorStep a).status = Status.completed →
      (acts.foldl doctorStep a).prescription.isSome = true := by
  induction acts generalizing a with
  | nil => exact h
  | cons act rest ih =>
      simp only [List.foldl_cons]
      exact ih (doctorStep a act) (doctorStep_preserves_rx a act h)

theorem foldl_add_eq_sum (f : Appointment → Nat) :
    ∀ (l : List Appointment) (n : Nat),
      l.foldl (fun s a => s + f a) n = n + (l.map f).sum := by
  intro l
  induction l with
  | nil =>
      intro n
      simp
  | cons a rest ih =>
      intro n
      rw [List.foldl_cons, ih, List.map_cons, List.sum_cons]
      omega

/-! ## Claims -/

/-- Claim C1 counterexample: two records of patient `p1` dated
2025-06-02 already exist; a third booking by `p1` for that same date
(made on 2025-06-01) nevertheless succeeds and persists a new record,
because `handleSubmit` counts only records whose `date` equals `today`
(the date of booking), not the requested date.  The claim predicts
`DailyLimitExceeded` here. -/
theorem C1_cex :
    apptTomorrow1.patientId = patOne.uid
    ∧ apptTomorrow2.patientId = patOne.uid
    ∧ apptTomorrow1.date = bookFormJun2.date
    ∧ apptTomorrow2.date = bookFormJun2.date
    ∧ handleSubmit [apptTomorrow1, apptTomorrow2] [drBob] patOne
        "2025-06-01" bookFormJun2 5 =
      .ok ([apptTomorrow1, apptTomorrow2] ++
        [newAppointment patOne drBob bookFormJun2 5]) := by
  decide

/-- Claim C1 (amended): the daily cap counts existing records with
`patientId` equal to the caller and `date` equal to the date the booking
is made (today), regardless of the requested date.  A request made when
two such records exist returns the daily-limit error and persists
nothing; when fewer exist the daily-limit error is never returned; and
records of a different patient, or dated on any day other than today, do
not affect the count. -/
theorem C1_daily_cap_counts_today :
    ∀ (appts : List Appointment) (doctors : List Doctor)
      (patient : UserProfile) (today : String) (form : BookingForm)
      (now : Nat),
      (todayAppointments appts patient.uid today ≥ 2 →
        handleSubmit appts doctors patient today form now =
          .error .dailyLimitExceeded)
      ∧ (todayAppointments appts patient.uid today < 2 →
          handleSubmit appts doctors patient today form now ≠
            .error .dailyLimitExceeded)
      ∧ (∀ b : Appointment, b.patientId ≠ patient.uid ∨ b.date ≠ today →
          todayAppointments (b :: appts) patient.uid today =
            todayAppointments appts patient.uid today) := by
  intro appts doctors patient today form now
  refine ⟨?_, ?_, ?_⟩
  · intro h
    unfold handleSubmit
    rw [if_pos h]
  · intro h
    have hlt : ¬ todayAppointments appts patient.uid today ≥ 2 := by omega
    unfold handleSubmit
    rw [if_neg hlt]
    split
    · simp
    · split
      · simp
      · split <;> simp
  · intro b hb
    have hfalse : (b.patientId == patient.uid && b.date == today) = false := by
      rcases hb with h | h <;> simp [h]
    simp [todayAppointments, List.filter_cons, hfalse]

/-- Witness for C1: the three parts of the amended claim at concrete
inputs. -/
theorem C1_daily_cap_counts_today_witness :
    handleSubmit [apptToday1, apptToday2] [drBob] patOne "2025-06-01"
        bookFormJun2 5 = .error .dailyLimitExceeded
    ∧ handleSubmit [apptToday1] [drBob] patOne "2025-06-01"
        bookFormJun2 5 ≠ .error .dailyLimitExceeded
    ∧ todayAppointments (apptTomorrow1 :: [apptToday1]) patOne.uid
        "2025-06-01" = todayAppointments [apptToday1] patOne.uid
        "2025-06-01" := by
  refine ⟨?_, ?_, ?_⟩
  · exact (C1_daily_cap_counts_today [apptToday1, apptToday2] [drBob]
      patOne "2025-06-01" bookFormJun2 5).1 (by decide)
  · exact (C1_daily_cap_counts_today [apptToday1] [drBob]
      patOne "2025-06-01" bookFormJun2 5).2.1 (by decide)
  · exact (C1_daily_cap_counts_today [apptToday1] [drBob]
      patOne "2025-06-01" bookFormJun2 5).2.2 apptTomorrow1
      (Or.inr (by decide))

/-- Claim C6 counterexample: (a) with two records dated today and a
past-dated request, the handler reports the daily limit, not the
past-date error, so the cap check is first, not fourth; (b) a request
whose time is not one of the twelve slots succeeds, so there is no
slot-membership check in the handler. -/
theorem C6_cex :
    strLt "2025-05-01" "2025-06-01" = true
    ∧ handleSubmit [apptToday1, apptToday2] [drBob] patOne "2025-06-01"
        { selectedDoctor := "d1", date := "2025-05-01", time := "09:00",
          note := "" } 5 = .error .dailyLimitExceeded
    ∧ timeSlots.contains "12:13" = false
    ∧ (handleSubmit [] [drBob] patOne "2025-06-01"
        { selectedDoctor := "d1", date := "2025-06-02", time := "12:13",
          note := "" } 5).isOk = true := by
  decide

/-- Claim C6 (amended): the booking preconditions are checked with first
failure winning in this order: (1) the daily cap over records dated
today, else the daily-limit error; (2) doctor, date and time all
non-empty, else the missing-fields error; (3) requested date not before
today, else the past-date error; (4) the doctor lookup: an unknown
non-empty doctor id fails with the generic booking failure and persists
nothing.  The handler never checks slot membership (the form only offers
the twelve slots).  On success exactly one appointment is appended, with
status pending, createdAt = now, and doctor/patient display names
snapshotted from the records at booking time. -/
theorem C6_booking_check_order :
    ∀ (appts : List Appointment) (doctors : List Doctor)
      (patient : UserProfile) (today : String) (form : BookingForm)
      (now : Nat),
      (todayAppointments appts patient.uid today ≥ 2 →
        handleSubmit appts doctors patient today form now =
          .error .dailyLimitExceeded)
      ∧ (todayAppointments appts patient.uid today < 2 →
          (form.selectedDoctor = "" ∨ form.date = "" ∨ form.time = "") →
          handleSubmit appts doctors patient today form now =
            .error .missingFields)
      ∧ (todayAppointments appts patient.uid today < 2 →
          form.selectedDoctor ≠ "" → form.date ≠ "" → form.time ≠ "" →
          strLt form.date today = true →
          handleSubmit appts doctors patient today form now =
            .error .pastDate)
      ∧ (todayAppointments appts patient.uid today < 2 →
          form.selectedDoctor ≠ "" → form.date ≠ "" → form.time ≠ "" →
          strLt form.date today = false →
          doctors.find? (fun d => d.uid == form.selectedDoctor) = none →
          handleSubmit appts doctors patient today form now =
            .error .bookingFailed)
      ∧ (∀ d : Doctor, todayAppointments appts patient.uid today < 2 →
          form.selectedDoctor ≠ "" → form.date ≠ "" → form.time ≠ "" →
          strLt form.date today = false →
          doctors.find? (fun d2 => d2.uid == form.selectedDoctor) =
            some d →
          handleSubmit appts doctors patient today form now =
            .ok (appts ++ [newAppointment patient d form now])
          ∧ (newAppointment patient d form now).status = .pending
          ∧ (newAppointment patient d form now).createdAt = now
          ∧ (newAppointment patient d form now).doctorName =
              d.firstName ++ " " ++ d.lastName
          ∧ (newAppointment patient d form now).patientName =
              patient.firstName ++ " " ++ patient.lastName
          ∧ (newAppointment patient d form now).patientId = patient.uid
          ∧ (newAppointment patient d form now).doctorId =
              form.selectedDoctor) := by
  intro appts doctors patient today form now
  refine ⟨?_, ?_, ?_, ?_, ?_⟩
  · intro h
    unfold handleSubmit
    rw [if_pos h]
  · intro hcap hmiss
    have hlt : ¬ todayAppointments appts patient.uid today ≥ 2 := by omega
    have hb : (form.selectedDoctor == "" || form.date == "" ||
        form.time == "") = true := by
      rcases hmiss with h | h | h <;> simp [h]
    unfold handleSubmit
    rw [if_neg hlt, if_pos hb]
  · intro hcap h1 h2 h3 hpast
    have hlt : ¬ todayAppointments appts patient.uid today ≥ 2 := by omega
    have hb : (form.selectedDoctor == "" || form.date == "" ||
        form.time == "") = false := by
      simp [h1, h2, h3]
    unfold handleSubmit
    rw [if_neg hlt, hb]
    simp [hpast]
  · intro hcap h1 h2 h3 hpast hfind
    have hlt : ¬ todayAppointments appts patient.uid today ≥ 2 := by omega
    have hb : (form.selectedDoctor == "" || form.date == "" ||
        form.time == "") = false := by
      simp [h1, h2, h3]
    unfold handleSubmit
    rw [if_neg hlt, hb]
    simp [hpast, hfind]
  · intro d hcap h1 h2 h3 hpast hfind
    have hlt : ¬ todayAppointments appts patient.uid today ≥ 2 := by omega
    have hb : (form.selectedDoctor == "" || form.date == "" ||
        form.time == "") = false := by
      simp [h1, h2, h3]
    refine ⟨?_, rfl, rfl, rfl, rfl, rfl, rfl⟩
    unfold handleSubmit
    rw [if_neg hlt, hb]
    simp [hpast, hfind]

/-- Witness for C6: every branch of the amended claim at concrete
inputs. -/
theorem C6_booking_check_order_witness :
    handleSubmit [apptToday1, apptToday2] [drBob] patOne "2025-06-01"
        bookFormJun2 5 = .error .dailyLimitExceeded
    ∧ handleSubmit [] [drBob] patOne "2025-06-01"
        { bookFormJun2 with time := "" } 5 = .error .missingFields
    ∧ handleSubmit [] [drBob] patOne "2025-06-01"
        { bookFormJun2 with date := "2025-05-01" } 5 = .error .pastDate
    ∧ handleSubmit [] [] patOne "2025-06-01" bookFormJun2 5 =
        .error .bookingFailed
    ∧ handleSubmit [] [drBob] patOne "2025-06-01" bookFormJun2 5 =
        .ok ([] ++ [newAppointment patOne drBob bookFormJun2 5]) := by
  refine ⟨?_, ?_, ?_, ?_, ?_⟩
  · exact (C6_booking_check_order [apptToday1, apptToday2] [drBob] patOne
      "2025-06-01" bookFormJun2 5).1 (by decide)
  · exact (C6_booking_check_order [] [drBob] patOne "2025-06-01"
      { bookFormJun2 with time := "" } 5).2.1 (by decide)
      (Or.inr (Or.inr rfl))
  · exact (C6_booking_check_order [] [drBob] patOne "2025-06-01"
      { bookFormJun2 with date := "2025-05-01" } 5).2.2.1 (by decide)
      (by decide) (by decide) (by decide) (by decide)
  · exact (C6_booking_check_order [] [] patOne "2025-06-01"
      bookFormJun2 5).2.2.2.1 (by decide) (by decide) (by decide)
      (by decide) (by decide) rfl
  · exact ((C6_booking_check_order [] [drBob] patOne "2025-06-01"
      bookFormJun2 5).2.2.2.2 drBob (by decide) (by decide) (by decide)
      (by decide) (by decide) (by decide)).1

/-- Claim C2 counterexample: the transition primitive
`updateAppointmentStatus` performs no check of the current status and
produces no error: invoked on a record in the terminal state completed,
it overwrites the status with confirmed instead of returning
InvalidTransition and leaving the record unchanged.  No InvalidTransition
outcome exists in the code. -/
theorem C2_cex :
    apptCompletedRx.status = .completed
    ∧ updateAppointmentStatus apptCompletedRx .confirmed ≠ apptCompletedRx
    ∧ (updateAppointmentStatus apptCompletedRx .confirmed).status =
        .confirmed := by
  decide

/-- Claim C2 (amended): the dashboard offers accept/decline only on
pending records, start only on confirmed ones, and
complete-with-prescription only on in-progress ones, so every UI-driven
action either leaves the record unchanged or moves the status along one
legal edge; over any sequence of UI-driven actions the status stays
within the legal reachability relation, and from the terminal states
completed and cancelled every action leaves the record unchanged (as a
no-op, not an InvalidTransition error — the underlying write primitive
itself checks nothing). -/
theorem C2_ui_state_machine :
    (∀ (a : Appointment) (act : DoctorAction),
        doctorStep a act = a ∨
          legalEdge a.status ((doctorStep a act).status) = true)
    ∧ (∀ (a : Appointment) (acts : List DoctorAction),
        reachable a.status ((acts.foldl doctorStep a).status) = true)
    ∧ (∀ (a : Appointment) (act : DoctorAction),
        a.status = .completed ∨ a.status = .cancelled →
          doctorStep a act = a) := by
  exact ⟨doctorStep_cases, foldl_doctorStep_reachable, doctorStep_terminal⟩

/-- Witness for C2: the three parts at concrete inputs, including a
terminal no-op. -/
theorem C2_ui_state_machine_witness :
    (doctorStep apptToday1 .accept = apptToday1 ∨
      legalEdge apptToday1.status
        ((doctorStep apptToday1 .accept).status) = true)
    ∧ reachable apptToday1.status
        (([DoctorAction.accept, .start].foldl doctorStep
          apptToday1).status) = true
    ∧ doctorStep apptCompletedRx .accept = apptCompletedRx := by
  refine ⟨?_, ?_, ?_⟩
  · exact C2_ui_state_machine.1 apptToday1 .accept
  · exact C2_ui_state_machine.2.1 apptToday1 [.accept, .start]
  · exact C2_ui_state_machine.2.2 apptCompletedRx .accept
      (Or.inl (by decide))

/-- Claim C3 counterexample: `handlePrescriptionSubmit` itself performs
no status check: applied to a pending appointment with a non-blank
medicine it succeeds (completes the record), though the claim says the
operation succeeds only from in-progress. -/
theorem C3_cex :
    apptToday1.status ≠ .inProgress
    ∧ handlePrescriptionSubmit apptToday1 rxAmox =
        .ok { apptToday1 with
                status := .completed, prescription := some rxAmox } := by
  decide

/-- Claim C3 (amended): `handlePrescriptionSubmit` rejects a blank
medicine with the missing-medicine error and writes nothing, and
otherwise atomically sets status completed and attaches the
prescription; the handler itself checks no status — only the UI gate
restricts it to in-progress records, so the UI-driven complete action is
a no-op off in-progress; neither the status write nor the feedback write
ever touches the prescription field, so under UI-driven actions every
appointment that is completed carries a prescription. -/
theorem C3_complete_with_prescription :
    (∀ (a : Appointment) (p : Prescription), strTrim p.medicine = "" →
        handlePrescriptionSubmit a p = .error .missingMedicine)
    ∧ (∀ (a : Appointment) (p : Prescription), strTrim p.medicine ≠ "" →
        handlePrescriptionSubmit a p =
          .ok { a with status := .completed, prescription := some p })
    ∧ (∀ (a : Appointment) (p : Prescription), a.status ≠ .inProgress →
        doctorStep a (.complete p) = a)
    ∧ (∀ (a : Appointment) (s : Status),
        (updateAppointmentStatus a s).prescription = a.prescription)
    ∧ (∀ (a : Appointment) (fb : Option Feedback),
        (handleFeedbackSubmit a fb).prescription = a.prescription)
    ∧ (∀ (a : Appointment) (acts : List DoctorAction),
        (a.status = .completed → a.prescription.isSome = true) →
        (acts.foldl doctorStep a).status = .completed →
          (acts.foldl doctorStep a).prescription.isSome = true) := by
  refine ⟨?_, ?_, ?_, ?_, ?_, foldl_doctorStep_preserves_rx⟩
  · intro a p h
    simp [handlePrescriptionSubmit, h]
  · intro a p h
    simp [handlePrescriptionSubmit, h]
  · intro a p h
    simp [doctorStep, h]
  · intro a s
    simp [updateAppointmentStatus]
  · intro a fb
    cases fb with
    | none => simp [handleFeedbackSubmit]
    | some f =>
        by_cases h : f.rating = 0 <;> simp [handleFeedbackSubmit, h]

/-- Witness for C3: each part at a concrete input. -/
theorem C3_complete_with_prescription_witness :
    handlePrescriptionSubmit apptToday1 rxBlank = .error .missingMedicine
    ∧ handlePrescriptionSubmit apptToday1 rxAmox =
        .ok { apptToday1 with
                status := .completed, prescription := some rxAmox }
    ∧ doctorStep apptToday1 (.complete rxAmox) = apptToday1
    ∧ (updateAppointmentStatus apptToday1 .completed).prescription =
        apptToday1.prescription
    ∧ (handleFeedbackSubmit apptToday1 (some fbFive)).prescription =
        apptToday1.prescription
    ∧ (([] : List DoctorAction).foldl doctorStep
        apptCompletedRx).prescription.isSome = true := by
  refine ⟨?_, ?_, ?_, ?_, ?_, ?_⟩
  · exact C3_complete_with_prescription.1 apptToday1 rxBlank (by decide)
  · exact C3_complete_with_prescription.2.1 apptToday1 rxAmox (by decide)
  · exact C3_complete_with_prescription.2.2.1 apptToday1 rxAmox
      (by decide)
  · exact C3_complete_with_prescription.2.2.2.1 apptToday1 .completed
  · exact C3_complete_with_prescription.2.2.2.2.1 apptToday1 (some fbFive)
  · exact C3_complete_with_prescription.2.2.2.2.2 apptCompletedRx []
      (by decide) (by decide)

/-- Claim C4 counterexample: the raw `handleFeedbackSubmit` checks
neither status nor an existing feedback: applied to a completed
appointment that already carries one feedback, a second submission
silently overwrites the stored feedback with the second input and
returns no FeedbackAlreadySubmitted error (no such error exists in the
code); the claim says the second call errors and the first input stays
stored. -/
theorem C4_cex :
    apptWithFb.feedback = some fbFive
    ∧ fbTwo ≠ fbFive
    ∧ (handleFeedbackSubmit apptWithFb (some fbTwo)).feedback =
        some fbTwo := by
  decide

/-- Claim C4 (amended): ownership is enforced by the dashboard query
(every record the patient page can submit feedback on has `patientId`
equal to the requester), and the feedback form is rendered only when the
status is completed and no feedback is present; under that gate a first
submission with a non-zero rating stores its input, and any further
submission on a feedback-bearing record is a no-op leaving the first
input stored — at-most-once semantics hold for UI-driven submissions,
but as a silent no-op, not a FeedbackAlreadySubmitted error (the raw
handler itself checks nothing and would overwrite). -/
theorem C4_feedback_at_most_once :
    (∀ (appts : List Appointment) (uid : String) (a : Appointment),
        a ∈ patientQuery appts uid → a.patientId = uid)
    ∧ (∀ (a : Appointment) (fb : Feedback),
        a.status = .completed → a.feedback = none → fb.rating ≠ 0 →
        (patientFeedbackStep a fb).feedback = some fb)
    ∧ (∀ (a : Appointment) (fb : Feedback), a.feedback ≠ none →
        patientFeedbackStep a fb = a)
    ∧ (∀ (a : Appointment) (fb fb2 : Feedback),
        a.status = .completed → a.feedback = none → fb.rating ≠ 0 →
        patientFeedbackStep (patientFeedbackStep a fb) fb2 =
          patientFeedbackStep a fb) := by
  have hstep : ∀ (a : Appointment) (fb : Feedback),
      a.status = .completed → a.feedback = none → fb.rating ≠ 0 →
      patientFeedbackStep a fb =
        { a with feedback := some fb } := by
    intro a fb h1 h2 h3
    simp [patientFeedbackStep, handleFeedbackSubmit, h1, h2, h3]
  refine ⟨?_, ?_, ?_, ?_⟩
  · intro appts uid a ha
    have := List.mem_filter.mp ha
    simpa using this.2
  · intro a fb h1 h2 h3
    rw [hstep a fb h1 h2 h3]
  · intro a fb h
    simp [patientFeedbackStep, h]
  · intro a fb fb2 h1 h2 h3
    rw [hstep a fb h1 h2 h3]
    simp [patientFeedbackStep]

/-- Witness for C4: the four parts at concrete inputs. -/
theorem C4_feedback_at_most_once_witness :
    apptToday1.patientId = "p1"
    ∧ (patientFeedbackStep apptDone fbFive).feedback = some fbFive
    ∧ patientFeedbackStep apptWithFb fbTwo = apptWithFb
    ∧ patientFeedbackStep (patientFeedbackStep apptDone fbFive) fbTwo =
        patientFeedbackStep apptDone fbFive := by
  refine ⟨?_, ?_, ?_, ?_⟩
  · exact C4_feedback_at_most_once.1 [apptToday1] "p1" apptToday1
      (by decide)
  · exact C4_feedback_at_most_once.2.1 apptDone fbFive (by decide)
      (by decide) (by decide)
  · exact C4_feedback_at_most_once.2.2.1 apptWithFb fbTwo (by decide)
  · exact C4_feedback_at_most_once.2.2.2 apptDone fbFive fbTwo
      (by decide) (by decide) (by decide)

/-- Claim C5 counterexample: a completed appointment with a stored
prescription, requested by its doctor: the claim says the prescription
is returned (requester is the doctor and status is completed), but the
doctor dashboard displays no stored prescription, so the requester gets
nothing.  `viewPrescriptionSpec` is the rule as the claim words it. -/
theorem C5_cex :
    apptCompletedRx.status = .completed
    ∧ apptCompletedRx.doctorId = "d1"
    ∧ apptCompletedRx.patientId ≠ "d1"
    ∧ viewPrescriptionSpec apptCompletedRx "d1" = some rxAmox
    ∧ viewPrescription apptCompletedRx "d1" = none := by
  decide

/-- Claim C5 (amended): the prescription field is returned to the
requester iff the status is completed and the requester is the
appointment's patient; the doctor dashboard never displays a stored
prescription; otherwise the requester gets "not available" (`none`, not
an error); and since UI-driven transitions never change `patientId` or
`doctorId`, the rule is the same pure function of the record before and
after any sequence of them. -/
theorem C5_prescription_visibility :
    (∀ (a : Appointment) (r : String),
        viewPrescription a r =
          if r = a.patientId ∧ a.status = .completed then a.prescription
          else none)
    ∧ (∀ (a : Appointment) (act : DoctorAction),
        (doctorStep a act).patientId = a.patientId
        ∧ (doctorStep a act).doctorId = a.doctorId) := by
  refine ⟨?_, doctorStep_fields⟩
  intro a r
  by_cases hr : r = a.patientId
  · by_cases hs : a.status = Status.completed
    · cases hp : a.prescription <;>
        simp [viewPrescription, patientPrescriptionView, hr, hs, hp]
    · by_cases hd : r = a.doctorId <;>
        simp [viewPrescription, patientPrescriptionView,
          doctorPrescriptionView, hr, hs, hd]
  · by_cases hd : r = a.doctorId
    · subst hd
      simp [viewPrescription, patientPrescriptionView,
        doctorPrescriptionView, hr]
    · simp [viewPrescription, patientPrescriptionView,
        doctorPrescriptionView, hr, hd]

/-- Claim C7 counterexample: `handleFeedbackSubmit` has no upper-bound
check: a submission with rating 6 is accepted and stored, where the
claim says it is rejected with InvalidRating (no such error exists; a
rating of 0 is dropped silently with no error value either). -/
theorem C7_cex :
    fbSix.rating = 6
    ∧ (handleFeedbackSubmit apptDone (some fbSix)).feedback =
        some fbSix := by
  decide

/-- Claim C7 (amended): the handler silently ignores a missing entry or
a rating of 0 (no InvalidRating error value exists) and performs no
upper-bound check; any non-zero rating it receives is stored as given;
but the star buttons are the only way the UI sets a rating, and they
only produce the values 1 to 5, so every feedback stored through the UI
has a rating in that range (and the range is preserved across
submissions). -/
theorem C7_rating_bounds :
    (∀ (a : Appointment) (fb : Feedback), fb.rating = 0 →
        handleFeedbackSubmit a (some fb) = a)
    ∧ (∀ a : Appointment, handleFeedbackSubmit a none = a)
    ∧ (∀ (a : Appointment) (fb : Feedback), fb.rating ≠ 0 →
        (handleFeedbackSubmit a (some fb)).feedback = some fb)
    ∧ (∀ (a : Appointment) (fb : Feedback),
        (∀ f : Feedback, a.feedback = some f → f.rating ∈ starRatings) →
        fb.rating ∈ starRatings →
        ∀ f : Feedback, (patientFeedbackStep a fb).feedback = some f →
          f.rating ∈ starRatings) := by
  refine ⟨?_, ?_, ?_, ?_⟩
  · intro a fb h
    simp [handleFeedbackSubmit, h]
  · intro a
    simp [handleFeedbackSubmit]
  · intro a fb h
    simp [handleFeedbackSubmit, h]
  · intro a fb hinv hfb f hf
    by_cases hc : a.status = Status.completed ∧ a.feedback = none ∧
        fb.rating ≠ 0
    · rw [show patientFeedbackStep a fb = { a with feedback := some fb }
        from by
          simp [patientFeedbackStep, handleFeedbackSubmit, hc.1,
            hc.2.1, hc.2.2]] at hf
      simp at hf
      rwa [hf] at hfb
    · have hno : patientFeedbackStep a fb = a := by
        simp only [patientFeedbackStep]
        by_cases h1 : a.status = Status.completed
        · by_cases h2 : a.feedback = none
          · by_cases h3 : fb.rating = 0
            · simp [handleFeedbackSubmit, h1, h2, h3]
            · exact absurd ⟨h1, h2, h3⟩ hc
          · simp [h2]
        · simp [h1]
      rw [hno] at hf
      exact hinv f hf

/-- Witness for C7: the four parts at concrete inputs. -/
theorem C7_rating_bounds_witness :
    handleFeedbackSubmit apptDone (some { rating := 0, comment := "" }) =
      apptDone
    ∧ handleFeedbackSubmit apptDone none = apptDone
    ∧ (handleFeedbackSubmit apptDone (some fbFive)).feedback = some fbFive
    ∧ fbFive.rating ∈ starRatings := by
  refine ⟨?_, ?_, ?_, ?_⟩
  · exact C7_rating_bounds.1 apptDone { rating := 0, comment := "" } rfl
  · exact C7_rating_bounds.2.1 apptDone
  · exact C7_rating_bounds.2.2.1 apptDone fbFive (by decide)
  · exact C7_rating_bounds.2.2.2 apptDone fbFive
      (fun f hf => Option.noConfusion hf) (by decide) fbFive (by decide)

/-- Claim C8: over the doctor's visible set, the pending, active and
completed stats are the counts of records with the corresponding
statuses, the rating sum is the sum of the stored ratings over the
feedback-bearing records, and the average rating is that sum divided by
the number of feedback-bearing records — equal to 0 (a number, not an
error) when there are none; over ratings 5 and 3 it equals 4. -/
theorem C8_doctor_aggregation :
    (∀ l : List Appointment,
        (pendingAppointments l).length =
            l.countP (fun a => a.status == .pending)
        ∧ (activeAppointments l).length =
            l.countP (fun a =>
              a.status == .confirmed || a.status == .inProgress)
        ∧ (completedAppointments l).length =
            l.countP (fun a => a.status == .completed)
        ∧ feedbackRatingSum l =
            ((appointmentsWithFeedback l).map
              (fun a => (a.feedback.map Feedback.rating).getD 0)).sum
        ∧ ((appointmentsWithFeedback l).length = 0 → averageRating l = 0)
        ∧ ((appointmentsWithFeedback l).length ≠ 0 →
            averageRating l =
              (feedbackRatingSum l : ℚ) /
                ((appointmentsWithFeedback l).length : ℚ)))
    ∧ averageRating [apptWithFb, apptWithFb3] = 4
    ∧ averageRating [] = 0 := by
  refine ⟨?_, ?_, ?_⟩
  · intro l
    refine ⟨?_, ?_, ?_, ?_, ?_, ?_⟩
    · rw [List.countP_eq_length_filter]
      rfl
    · rw [List.countP_eq_length_filter]
      rfl
    · rw [List.countP_eq_length_filter]
      rfl
    · rw [feedbackRatingSum, foldl_add_eq_sum]
      omega
    · intro h
      simp [averageRating, h]
    · intro h
      have hpos : (appointmentsWithFeedback l).length > 0 :=
        Nat.pos_of_ne_zero h
      simp [averageRating, hpos]
  · norm_num [averageRating, appointmentsWithFeedback, feedbackRatingSum,
      apptWithFb, apptWithFb3, apptDone, apptToday1, fbFive]
  · rfl

/-- Witness for C8: the empty and the two-feedback cases through the
theorem. -/
theorem C8_doctor_aggregation_witness :
    averageRating [] = 0
    ∧ averageRating [apptWithFb, apptWithFb3] =
        (feedbackRatingSum [apptWithFb, apptWithFb3] : ℚ) /
          ((appointmentsWithFeedback [apptWithFb, apptWithFb3]).length :
            ℚ) := by
  refine ⟨?_, ?_⟩
  · exact (C8_doctor_aggregation.1 []).2.2.2.2.1 rfl
  · exact (C8_doctor_aggregation.1 [apptWithFb, apptWithFb3]).2.2.2.2.2
      (by decide)

/-- Claim C9: the upcoming and prescriptions stats are the claimed
counts, but the third stat — displayed as Completed Visits — is the
size of `pastAppointments`, which also counts cancelled records: on a
list holding one cancelled appointment the page shows 1 though the
count of records with status completed is 0.  The claim (and the label
in the page itself) says it counts completed records only. -/
theorem C9_patient_projection :
    (∀ l : List Appointment,
        (upcomingAppointments l).length = l.countP (fun a =>
          a.status == .pending || a.status == .confirmed ||
            a.status == .inProgress)
        ∧ prescriptionsCount l =
            l.countP (fun a => a.prescription.isSome)
        ∧ (pastAppointments l).length = l.countP (fun a =>
            a.status == .completed || a.status == .cancelled))
    ∧ apptCancelled.status = .cancelled
    ∧ (pastAppointments [apptCancelled]).length = 1
    ∧ [apptCancelled].countP (fun a => a.status == .completed) = 0 := by
  refine ⟨?_, by decide, by decide, by decide⟩
  intro l
  refine ⟨?_, ?_, ?_⟩
  · rw [List.countP_eq_length_filter]
    rfl
  · rw [List.countP_eq_length_filter]
    rfl
  · rw [List.countP_eq_length_filter]
    rfl

/-- Claim C10: `register` throws (creating no auth user and writing no
profile document) exactly when the email does not end with the literal
suffix, every successful registration appends one profile carrying that
email, and over any sequence of registration attempts every profile in
the store keeps an email with the required suffix — so only callers
with such an email ever obtain a (userId, role) identity. -/
theorem C10_register_email_gate :
    (∀ (store : List UserProfile) (r : RegRequest),
        validateEmail r.email = false →
        register store r = .error "Email must end with @meditrack.local"
        ∧ registerEffect store r = store)
    ∧ (∀ (store : List UserProfile) (r : RegRequest)
        (out : List UserProfile), register store r = .ok out →
        strEndsWith r.email "@meditrack.local" = true
        ∧ ∃ p : UserProfile, out = store ++ [p] ∧ p.email = r.email
            ∧ p.uid = r.uid ∧ p.role = r.role)
    ∧ (∀ (store : List UserProfile) (reqs : List RegRequest),
        (∀ p ∈ store, validateEmail p.email = true) →
        ∀ p ∈ reqs.foldl registerEffect store,
          validateEmail p.email = true) := by
  refine ⟨?_, ?_, ?_⟩
  · intro store r h
    constructor
    · simp [register, h]
    · simp [registerEffect, register, h]
  · intro store r out h
    by_cases hv : validateEmail r.email = true
    · constructor
      · simpa [validateEmail] using hv
      · refine ⟨{ uid := r.uid
                  email := r.email
                  role := r.role
                  firstName := r.firstName
                  lastName := r.lastName
                  createdAt := r.now }, ?_, rfl, rfl, rfl⟩
        simpa [register, hv] using h.symm
    · rw [register, if_pos (by simp [Bool.eq_false_iff.mpr hv])] at h
      exact absurd h (by simp)
  · intro store reqs
    induction reqs generalizing store with
    | nil =>
        intro h p hp
        exact h p hp
    | cons r rest ih =>
        intro h p hp
        rw [List.foldl_cons] at hp
        refine ih (registerEffect store r) ?_ p hp
        intro q hq
        by_cases hv : validateEmail r.email = true
        · rw [registerEffect, register, if_neg (by simp [hv])] at hq
          simp only [List.mem_append, List.mem_singleton] at hq
          rcases hq with hq | hq
          · exact h q hq
          · rw [hq]
            exact hv
        · rw [registerEffect, register,
            if_pos (by simp [Bool.eq_false_iff.mpr hv])] at hq
          exact h q hq

/-- Witness for C10: the rejection, the success shape, and the store
invariant at concrete inputs. -/
theorem C10_register_email_gate_witness :
    register [] regBad = .error "Email must end with @meditrack.local"
    ∧ strEndsWith regGood.email "@meditrack.local" = true
    ∧ ∀ p ∈ [regGood, regBad].foldl registerEffect
        ([] : List UserProfile), validateEmail p.email = true := by
  refine ⟨?_, ?_, ?_⟩
  · exact (C10_register_email_gate.1 [] regBad (by decide)).1
  · exact (C10_register_email_gate.2.1 [] regGood [profileAnn]
      (by decide)).1
  · exact C10_register_email_gate.2.2 [] [regGood, regBad]
      (fun p hp => absurd hp (by simp))

end MediTrack
